import Mathlib

/-
Verification development for the blog migration tool.

Shallow embedding of the repository sources:
  db_handler.py  -> the dedup ledger (SQLite table `posts` with AUTOINCREMENT id,
                    UNIQUE url) modelled as an explicit `Ledger` value that is
                    threaded through every operation,
  formatter.py   -> date parsing/formatting and payload assembly,
  download.py    -> the media pipeline entry point `process_image_links`,
  uploader.py    -> `upload_post`, `upload_featured_image`, `safe_filename`,
  temp_storage.py-> per-run session cache,
  main.py        -> the orchestrator loop `run_migration` and the `__main__`
                    retry wrapper.

External effects (HTTP, the Selenium renderer, the filesystem, the global RNG)
are supplied through an explicit environment record `Env`; the orchestrator is
a pure fold over the discovered posts that also records, as a list of `Event`s,
which collaborator operations were invoked for which url.
-/

/-! ## Dedup ledger (db_handler.py) -/

/-- One row of the SQLite table `posts`
(`id INTEGER PRIMARY KEY AUTOINCREMENT, url TEXT UNIQUE, featured_image BOOL,
wp_post_id INTEGER`).  The two trailing columns are never written by the
observed flow, hence `Option` fields that stay `none`. -/
structure LedgerRow where
  id : Nat
  url : String
  featured_image : Option Bool
  wp_post_id : Option Nat
deriving DecidableEq, Repr

/-- The `migrated_posts.db` state: the rows of table `posts` plus the
`sqlite_sequence` counter for the AUTOINCREMENT column (0 when the
`sqlite_sequence` row is absent, i.e. next id is 1). -/
structure Ledger where
  rows : List LedgerRow
  seq : Nat
deriving DecidableEq, Repr

/-- A freshly created database: no rows, sequence counter absent. -/
def emptyLedger : Ledger := { rows := [], seq := 0 }

/-- `initialize_db()`: `CREATE TABLE IF NOT EXISTS` — creates the table on a
fresh database and leaves an existing database unchanged. -/
def initialize_db (db : Option Ledger) : Ledger :=
  match db with
  | none => emptyLedger
  | some l => l

/-- `is_post_migrated(url)`: `SELECT 1 FROM posts WHERE url = ?` returned a
row. -/
def is_post_migrated (l : Ledger) (url : String) : Bool :=
  l.rows.any (fun r => r.url == url)

/-- `mark_post_as_migrated(url)`: `INSERT OR IGNORE INTO posts (url) VALUES (?)`.
On a UNIQUE-url conflict the insert is ignored; otherwise the row receives the
next AUTOINCREMENT id (`seq + 1`) and the sequence counter advances. -/
def mark_post_as_migrated (l : Ledger) (url : String) : Ledger :=
  if l.rows.any (fun r => r.url == url) then l
  else { rows := l.rows ++ [{ id := l.seq + 1, url := url, featured_image := none, wp_post_id := none }],
         seq := l.seq + 1 }

/-- `delete_migrated_posts()`: `DELETE FROM posts` followed by
`DELETE FROM sqlite_sequence WHERE name='posts'`, which resets the
AUTOINCREMENT counter. -/
def delete_migrated_posts (_l : Ledger) : Ledger :=
  { rows := [], seq := 0 }

/-! ## Date parsing and formatting (formatter.format_post_date)

`datetime.strptime(date_str, "%B %d, %Y")` is embedded as a character-level
parser on `String.data`: full month name (case-insensitive), one space, a one-
or two-digit day, a comma, one space, a four-digit year; the resulting date is
validated against the per-month day count (with leap years) exactly as the
`datetime` constructor does.  Only structural recursion is used so that every
definition evaluates inside the kernel. -/

/-- Splits a character list at every occurrence of `c` (the separators are
dropped), mirroring how the strptime format string is matched piecewise. -/
def splitOnCharAux (c : Char) : List Char → List Char → List (List Char)
  | [], acc => [acc.reverse]
  | x :: xs, acc =>
    if x = c then acc.reverse :: splitOnCharAux c xs []
    else splitOnCharAux c xs (x :: acc)

def splitOnChar (c : Char) (l : List Char) : List (List Char) :=
  splitOnCharAux c l []

/-- The month names recognised by `%B` (CPython matches them
case-insensitively). -/
def monthNames : List String :=
  ["january", "february", "march", "april", "may", "june",
   "july", "august", "september", "october", "november", "december"]

def monthIndexAux : List String → Nat → List Char → Option Nat
  | [], _, _ => none
  | n :: rest, i, s => if s = n.data then some i else monthIndexAux rest (i + 1) s

/-- Month number (1-12) of a lower-cased month name, if it is one. -/
def monthIndex (s : List Char) : Option Nat :=
  monthIndexAux monthNames 1 s

/-- Decimal value of a digit string. -/
def digitsToNat (l : List Char) : Nat :=
  l.foldl (fun acc c => acc * 10 + (c.toNat - 48)) 0

/-- Gregorian leap-year rule used by `datetime`. -/
def isLeapYear (y : Nat) : Bool :=
  y % 4 == 0 && (y % 100 != 0 || y % 400 == 0)

/-- Days in month `m` of year `y`, as validated by the `datetime`
constructor. -/
def daysInMonth (y m : Nat) : Nat :=
  if m = 2 then (if isLeapYear y then 29 else 28)
  else if m = 4 ∨ m = 6 ∨ m = 9 ∨ m = 11 then 30
  else 31

/-- `datetime.strptime(s, "%B %d, %Y")`: returns `(year, month, day)` or
`none` when the string does not match the format or names an invalid
calendar date. -/
def strptime_BdY (s : String) : Option (Nat × Nat × Nat) :=
  match splitOnChar ' ' s.data with
  | [mChars, dChars, yChars] =>
    match monthIndex (mChars.map Char.toLower) with
    | none => none
    | some m =>
      match dChars.reverse with
      | ',' :: dRev =>
        let dDigits := dRev.reverse
        if dDigits.all Char.isDigit ∧ 1 ≤ dDigits.length ∧ dDigits.length ≤ 2 then
          let d := digitsToNat dDigits
          if yChars.all Char.isDigit ∧ yChars.length = 4 then
            let y := digitsToNat yChars
            if 1 ≤ d ∧ d ≤ daysInMonth y m ∧ 1 ≤ y then some (y, m, d) else none
          else none
        else none
      | _ => none
  | _ => none

/-- Two-digit zero padding, as produced by `strftime` for `%m %d %H %M %S`. -/
def pad2 (n : Nat) : String :=
  if n < 10 then "0" ++ toString n else toString n

/-- `random.randint(lo, hi)` (inclusive bounds).  The process-global RNG is
modelled as a stream `rng : Nat → Nat` indexed by a consumption counter
`pos`; each draw reduces the stream value into the requested range and
advances the counter. -/
def randint (rng : Nat → Nat) (lo hi pos : Nat) : Nat × Nat :=
  (lo + rng pos % (hi + 1 - lo), pos + 1)

/-- A single-quote character, for building error-message literals. -/
def squote : String := String.singleton (Char.ofNat 39)

/-- The message of the `ValueError` re-raised by `format_post_date`. -/
def dateFormatErrMsg : String :=
  "Date format must be like " ++ squote ++ "March 27, 2025" ++ squote

/-- `format_post_date(date_str)`: parse with `%B %d, %Y`, attach a random
time of day (hour 6-23, minute 0-59, second 0-59), and render with
`strftime("%Y-%m-%dT%H:%M:%S")`.  A parse failure is re-raised as the fixed
descriptive `ValueError`.  Returns the result together with the advanced
RNG counter. -/
def format_post_date (rng : Nat → Nat) (pos : Nat) (date_str : String) :
    Except String String × Nat :=
  match strptime_BdY date_str with
  | none => (Except.error dateFormatErrMsg, pos)
  | some (y, m, d) =>
    let (hour, pos1) := randint rng 6 23 pos
    let (minute, pos2) := randint rng 0 59 pos1
    let (second, pos3) := randint rng 0 59 pos2
    (Except.ok (toString y ++ "-" ++ pad2 m ++ "-" ++ pad2 d ++ "T" ++
                pad2 hour ++ ":" ++ pad2 minute ++ ":" ++ pad2 second), pos3)

/-! ## Data model of posts and payloads -/

/-- An `<img>` element of the post content markup as BeautifulSoup exposes it:
its optional `src` attribute and its list of CSS classes (`img.get("class", [])`,
absent means `[]`).  The surrounding non-image markup only flows into the
opaque serialisation (`str(soup)`), supplied by the environment. -/
structure Img where
  src : Option String
  classes : List String
deriving DecidableEq, Repr

/-- The dictionary returned by `scrape_post_content`: url, title, date string,
the content markup (represented by its `<img>` elements), and the separately
scraped image-URL list (unused by the formatter). -/
structure FullPost where
  url : String
  title : String
  content_imgs : List Img
  date : String
  images : List String
deriving DecidableEq, Repr

/-- A `(title, url, featured_image)` dictionary produced by
`scrape_homepage`. -/
structure PostRef where
  title : String
  url : String
  featured_image : Option String
deriving DecidableEq, Repr

/-- The payload dictionary assembled by `format_post_content` for the
WordPress REST API. -/
structure Payload where
  date : String
  title : String
  content : String
  featured_media : Option Nat
deriving DecidableEq, Repr

/-- A Python exception escaping a stage. -/
inductive PyErr where
  | valueError (msg : String)
  | keyError (key : String)
  | typeError (msg : String)
deriving DecidableEq, Repr

/-- Result of a `scrape_post_content(url)` call: a post dictionary, `None`
(internal locator errors are caught inside the function), or a
`WebDriverException` raised by the Chrome-driver construction, which is not
caught inside the function. -/
inductive ScrapeResult where
  | post (p : FullPost)
  | failed
  | driverCrash
deriving DecidableEq, Repr

/-- Result of the `scrape_homepage()` call: the discovered post list (locator
errors inside are caught and yield a partial or empty list) or a
`WebDriverException` from the driver construction. -/
inductive DiscoveryResult where
  | posts (ps : List PostRef)
  | driverCrash
deriving DecidableEq, Repr

/-- A media-endpoint HTTP response: status code and the optional `id` field of
the JSON body. -/
structure MediaResp where
  status : Nat
  id : Option Nat
deriving DecidableEq, Repr

/-- The dictionary returned by `process_image_links`. -/
structure MediaResult where
  featured_media : Option String
  content_images : Option (List String)
deriving DecidableEq, Repr

/-- The external world of one program execution: discovery and extraction
results (the Selenium renderer), the global RNG stream, the media processor
(`adjust_featured_media`, opaque per the spec), the local filesystem, the two
remote endpoints, the BeautifulSoup serialisation of the modified markup, and
the NFKD decomposition of non-ASCII characters. -/
structure Env where
  discover : DiscoveryResult
  scrape : String → ScrapeResult
  rng : Nat → Nat
  adjustFeatured : String → String → Option String
  fs : String → Option (List Nat)
  mediaPost : List Nat → String → MediaResp
  createPost : Payload → Nat
  serialize : List Img → String
  decomp : Char → List Char

/-! ## Media pipeline (download.process_image_links) -/

/-- `process_image_links(img_list, post_title)`: an empty list short-circuits
to `{'featured_media': "", 'content_images': []}` before any directory reset
or download; otherwise only the first URL is processed
(`adjust_featured_media`, which returns a path or `None`), and
`content_images` is the literal `None` reserved for future use. -/
def process_image_links (env : Env) (img_list : List String) (post_title : String) :
    MediaResult :=
  match img_list with
  | [] => { featured_media := some "", content_images := some [] }
  | featured :: _ =>
    { featured_media := env.adjustFeatured featured post_title, content_images := none }

/-! ## Uploader (uploader.py) -/

/-- `os.path.basename`: the part after the last slash. -/
def lastPart : List (List Char) → List Char
  | [] => []
  | [x] => x
  | _ :: xs => lastPart xs

def basename (p : String) : String :=
  String.mk (lastPart (splitOnChar '/' p.data))

/-- One NFKD step: codepoints below 128 have no compatibility decomposition
(they are fixed by `unicodedata.normalize("NFKD", ...)`); the decomposition of
any other character is supplied by the environment. -/
def nfkd_char (decomp : Char → List Char) (c : Char) : List Char :=
  if c.toNat < 128 then [c] else decomp c

/-- `safe_filename(name)`: NFKD-normalize, then
`encode("ascii", "ignore").decode("ascii")`, which drops every codepoint at or
above 128. -/
def safe_filename (decomp : Char → List Char) (name : String) : String :=
  String.mk ((name.data.flatMap (nfkd_char decomp)).filter (fun c => c.toNat < 128))

/-- The filename placed into the Content-Disposition header by
`upload_featured_image`: the sanitized basename of the local image path. -/
def content_disposition_filename (env : Env) (image_path : String) : String :=
  safe_filename env.decomp (basename image_path)

/-- `upload_featured_image(image_path)`.  `open(image_path, 'rb')` on a
missing file raises `FileNotFoundError`, which is caught (warn, return `None`)
before any request is issued; `open(None, ...)` raises an uncaught
`TypeError`.  On a readable file the image bytes are posted to the media
endpoint with the sanitized filename; a 201 response yields the media id.
The boolean in the result records whether a remote media request was
issued. -/
def upload_featured_image (env : Env) (image_path : Option String) :
    Except PyErr (Option Nat × Bool) :=
  match image_path with
  | none =>
    Except.error (PyErr.typeError "expected str, bytes or os.PathLike object, not NoneType")
  | some p =>
    match env.fs p with
    | none => Except.ok (none, false)
    | some image_data =>
      let filename := content_disposition_filename env p
      let response := env.mediaPost image_data filename
      if response.status == 201 then Except.ok (response.id, true)
      else Except.ok (none, true)

/-- `upload_post(post_data)`: POST to the posts endpoint; success is exactly a
201 status code. -/
def upload_post (env : Env) (payload : Payload) : Bool :=
  env.createPost payload == 201

/-! ## Transform stage (formatter.format_post_content) -/

/-- The per-image styling step:
`img["class"] = img.get("class", []) + ["img-fluid", "mb-3"]`. -/
def add_classes (img : Img) : Img :=
  { img with classes := img.classes ++ ["img-fluid", "mb-3"] }

/-- The image-collection step of the formatter loop:
`img_links.append(str(img["src"]))` for each `<img>` in document order.
BeautifulSoup raises `KeyError('src')` when an element has no `src`
attribute. -/
def collect_img_srcs : List Img → Except PyErr (List String)
  | [] => Except.ok []
  | img :: rest =>
    match img.src with
    | none => Except.error (PyErr.keyError "src")
    | some s =>
      match collect_img_srcs rest with
      | Except.error e => Except.error e
      | Except.ok tail => Except.ok (s :: tail)

/-- The fixed attribution block appended below the Bootstrap container. -/
def attribution_block : String :=
  "<div class=\"bg-info-subtle text-left p-3 rounded\">" ++
  "<strong><a href=\"https://whatisalexthinking.com/\" target=\"_blank\">Source</a></strong><br/>" ++
  "This blog post was re-posted here with the permission of the original author. " ++
  "Please take a look at his actual blog for more up-to-date content.</div>&nbsp;<hr />"

/-- Wrapping of the serialised content in the Bootstrap container plus the
attribution notice. -/
def wrap_content (content : String) : String :=
  "<div class=\"container mt-4\">" ++ content ++ "</div>" ++ attribution_block

/-- `format_post_content(post)`: format the date (consuming three RNG draws on
success), style every image and collect the `src` links, run the media
pipeline, upload the featured image, and assemble the payload.  Errors
(`ValueError` from the date, `KeyError` from a missing `src`, `TypeError` from
a `None` image path) propagate to the caller; the second component of the
result is the advanced RNG counter, and the boolean records whether a remote
media request was issued. -/
def format_post_content (env : Env) (pos : Nat) (post : FullPost) :
    Except PyErr (Payload × Bool) × Nat :=
  match format_post_date env.rng pos post.date with
  | (Except.error msg, pos1) => (Except.error (PyErr.valueError msg), pos1)
  | (Except.ok date, pos1) =>
    match collect_img_srcs post.content_imgs with
    | Except.error e => (Except.error e, pos1)
    | Except.ok img_links =>
      let image_path_dict := process_image_links env img_links post.title
      match upload_featured_image env image_path_dict.featured_media with
      | Except.error e => (Except.error e, pos1)
      | Except.ok (featured_media_id, mediaReq) =>
        let content := env.serialize (post.content_imgs.map add_classes)
        (Except.ok ({ date := date, title := post.title,
                      content := wrap_content content,
                      featured_media := featured_media_id }, mediaReq), pos1)

/-! ## Session cache (temp_storage.py) -/

/-- `TempStorage.save_post(post)`: `INSERT` into the unique-url temp table;
an `IntegrityError` on a duplicate url is caught (warn) and the run
continues. -/
def temp_save (temp : List FullPost) (post : FullPost) : List FullPost :=
  if temp.any (fun q => q.url == post.url) then temp else temp ++ [post]

/-! ## Migration orchestrator (main.py) -/

/-- One observable collaborator invocation of the per-post loop, keyed by the
post url the iteration works on. -/
inductive Event where
  | skip (url : String)
  | scrapeCall (url : String)
  | scrapeFail (url : String)
  | saveCall (url : String)
  | formatCall (url : String)
  | uploadCall (url : String) (ok : Bool)
  | markCall (url : String)
deriving DecidableEq, Repr

/-- An exception escaping `run_migration`. -/
inductive RunError where
  | webDriver
  | pyExc (e : PyErr)
deriving DecidableEq, Repr

/-- The mutable state of one `run_migration` execution: the durable ledger,
the per-run session cache, the trace of collaborator invocations, and the RNG
consumption counter. -/
structure RunState where
  ledger : Ledger
  temp : List FullPost
  events : List Event
  rngPos : Nat
deriving DecidableEq, Repr

/-- The state at the top of `run_migration`: given ledger, fresh session
cache, no invocations yet. -/
def initState (ledger : Ledger) : RunState :=
  { ledger := ledger, temp := [], events := [], rngPos := 0 }

/-- One iteration of the `for post in posts` loop:
consult the ledger and skip, else extract (`scrape_post_content`), on `None`
log-and-continue, else save to the session cache, format, and upload —
marking the ledger only when `upload_post` returned `True`.  A
`WebDriverException` from the scraper or a Python exception from the
formatter is not caught here and aborts the loop with the state reached so
far. -/
def processPost (env : Env) (st : RunState) (p : PostRef) :
    RunState × Option RunError :=
  if is_post_migrated st.ledger p.url then
    ({ st with events := st.events ++ [Event.skip p.url] }, none)
  else
    match env.scrape p.url with
    | ScrapeResult.driverCrash =>
      ({ st with events := st.events ++ [Event.scrapeCall p.url] }, some RunError.webDriver)
    | ScrapeResult.failed =>
      ({ st with events := st.events ++ [Event.scrapeCall p.url, Event.scrapeFail p.url] }, none)
    | ScrapeResult.post full =>
      let st1 : RunState :=
        { st with
          temp := temp_save st.temp full,
          events := st.events ++ [Event.scrapeCall p.url, Event.saveCall p.url, Event.formatCall p.url] }
      match format_post_content env st1.rngPos full with
      | (Except.error e, pos1) =>
        ({ st1 with rngPos := pos1 }, some (RunError.pyExc e))
      | (Except.ok (payload, _mediaReq), pos1) =>
        let ok := upload_post env payload
        let st2 : RunState :=
          { st1 with rngPos := pos1, events := st1.events ++ [Event.uploadCall p.url ok] }
        if ok then
          ({ st2 with
             ledger := mark_post_as_migrated st2.ledger p.url,
             events := st2.events ++ [Event.markCall p.url] }, none)
        else (st2, none)

/-- The whole `for` loop: posts are processed in order; the first uncaught
exception aborts the loop, surfacing the state reached so far. -/
def runPosts (env : Env) (st : RunState) : List PostRef → RunState × Option RunError
  | [] => (st, none)
  | p :: ps =>
    match processPost env st p with
    | (st1, none) => runPosts env st1 ps
    | (st1, some e) => (st1, some e)

/-- `run_migration()`: initialize the ledger schema, discover the homepage
posts (a `WebDriverException` from the driver construction propagates), treat
an empty discovery as nothing-to-do, and run the per-post loop. -/
def run_migration (env : Env) (ledger : Ledger) : RunState × Option RunError :=
  match env.discover with
  | DiscoveryResult.driverCrash => (initState ledger, some RunError.webDriver)
  | DiscoveryResult.posts ps => runPosts env (initState ledger) ps

/-- The `__main__` block: run the migration once; on a `WebDriverException`
run the ChromeDriver-upgrade procedure and retry the whole run exactly once
(against the post-upgrade environment `env2` and the ledger state the aborted
run left behind).  Any error of the second run — and any non-WebDriver error
of the first — propagates to the caller.  The boolean records whether the
upgrade procedure was triggered. -/
def main_entry (env1 env2 : Env) (ledger : Ledger) :
    (RunState × Option RunError) × Bool :=
  match run_migration env1 ledger with
  | (st, some RunError.webDriver) => (run_migration env2 st.ledger, true)
  | r => (r, false)

/-- Events that constitute a side effect for the post at `u`: invoking the
Extraction stage, the Session-Cache save, the Transform stage, the Publisher,
or the ledger write.  (`skip` and the extraction-failure log are not side
effects.) -/
def touches (u : String) : Event → Bool
  | Event.scrapeCall v => v == u
  | Event.saveCall v => v == u
  | Event.formatCall v => v == u
  | Event.uploadCall v _ => v == u
  | Event.markCall v => v == u
  | Event.skip _ => false
  | Event.scrapeFail _ => false

/-! ## Concrete instances used by witness and counterexample theorems -/

/-- A concrete environment used by the witness theorems: empty discovery, every
extraction fails benignly, a zero RNG stream, an empty filesystem, a media
endpoint that rejects, a posts endpoint that accepts, and a trivial
serializer/decomposition. -/
def defaultEnv : Env :=
  { discover := DiscoveryResult.posts [],
    scrape := fun _ => ScrapeResult.failed,
    rng := fun _ => 0,
    adjustFeatured := fun _ _ => none,
    fs := fun _ => none,
    mediaPost := fun _ _ => { status := 404, id := none },
    createPost := fun _ => 201,
    serialize := fun _ => "",
    decomp := fun _ => [] }

/-- A concrete post whose only image element carries no `src` attribute. -/
def testPostC9 : FullPost :=
  { url := "https://s/x", title := "X",
    content_imgs := [{ src := none, classes := [] }],
    date := "March 27, 2025", images := [] }

/-- A concrete post with no images at all. -/
def testPostC7 : FullPost :=
  { url := "https://s/y", title := "Y", content_imgs := [],
    date := "March 27, 2025", images := [] }

/-- An environment whose renderer crashes at discovery. -/
def crashEnv : Env := { defaultEnv with discover := DiscoveryResult.driverCrash }

/-- A post whose scraped date string does not match the expected format. -/
def badPost : FullPost :=
  { url := "https://s/p1", title := "P1", content_imgs := [],
    date := "13/45/2025", images := [] }

/-- A well-formed post following the malformed one. -/
def goodPost : FullPost :=
  { url := "https://s/p2", title := "P2", content_imgs := [],
    date := "March 27, 2025", images := [] }

/-- An environment that discovers the malformed post first and a well-formed
post after it. -/
def cexEnvC3 : Env :=
  { defaultEnv with
    discover := DiscoveryResult.posts
      [{ title := "P1", url := "https://s/p1", featured_image := none },
       { title := "P2", url := "https://s/p2", featured_image := none }],
    scrape := fun u =>
      if u = "https://s/p1" then ScrapeResult.post badPost
      else if u = "https://s/p2" then ScrapeResult.post goodPost
      else ScrapeResult.failed }

/-- A ledger already holding one migrated url. -/
def ledgerC2 : Ledger :=
  { rows := [{ id := 1, url := "https://s/a1", featured_image := none, wp_post_id := none }],
    seq := 1 }

/-- An environment that re-discovers exactly that migrated post. -/
def envC2 : Env :=
  { defaultEnv with
    discover := DiscoveryResult.posts
      [{ title := "A1", url := "https://s/a1", featured_image := none }] }

/-! ## Helper lemmas -/

/-- Marking url `v` preserves and possibly extends ledger membership: `u` is
present afterwards exactly when it was present before or equals `v`. -/
theorem is_post_migrated_mark (l : Ledger) (v u : String) :
    is_post_migrated (mark_post_as_migrated l v) u =
      (is_post_migrated l u || v == u) := by
  unfold is_post_migrated mark_post_as_migrated
  by_cases h : l.rows.any (fun r => r.url == v) = true
  · simp only [h, if_pos]
    by_cases hvu : v = u
    · subst hvu; simp [h]
    · simp [beq_iff_eq, hvu]
  · simp only [h]
    simp [List.any_append, beq_iff_eq]

/-- A filtered list satisfies the filtering predicate everywhere. -/
theorem all_filter_self (p : Char → Bool) (l : List Char) :
    (l.filter p).all p = true := by
  induction l with
  | nil => rfl
  | cons c cs ih =>
    by_cases h : p c = true
    · simp [List.filter, h, ih]
    · simp [List.filter, h, ih]

/-! ## Claims -/

/-- Claim C4 — Ledger idempotence: for a url `u` not yet recorded,
`is_post_migrated u` holds after `mark_post_as_migrated u`; marking a second
time is a no-op (the ledger value is unchanged, not an error); and the
resulting ledger holds exactly one record for `u`. -/
theorem c4_ledger_idempotence (l : Ledger) (u : String)
    (h : is_post_migrated l u = false) :
    is_post_migrated (mark_post_as_migrated l u) u = true
    ∧ mark_post_as_migrated (mark_post_as_migrated l u) u = mark_post_as_migrated l u
    ∧ (mark_post_as_migrated (mark_post_as_migrated l u) u).rows.countP
        (fun r => r.url == u) = 1 := by
  have h1 : is_post_migrated (mark_post_as_migrated l u) u = true := by
    rw [is_post_migrated_mark]; simp
  have h2 : mark_post_as_migrated (mark_post_as_migrated l u) u =
      mark_post_as_migrated l u := by
    have hc := h1
    unfold is_post_migrated at hc
    conv_lhs => rw [mark_post_as_migrated]
    rw [if_pos hc]
  refine ⟨h1, h2, ?_⟩
  rw [h2]
  unfold is_post_migrated at h
  unfold mark_post_as_migrated
  rw [if_neg (by simp [h])]
  have hz : l.rows.countP (fun r => r.url == u) = 0 := by
    rw [List.countP_eq_zero]
    intro r hr
    have := List.any_eq_false.mp h r hr
    simpa using this
  simp [List.countP_append, hz]

/-- Claim C4 witness at a concrete ledger and url. -/
theorem c4_ledger_idempotence_witness :
    is_post_migrated emptyLedger "https://s/a" = false
    ∧ (is_post_migrated (mark_post_as_migrated emptyLedger "https://s/a") "https://s/a" = true
       ∧ mark_post_as_migrated (mark_post_as_migrated emptyLedger "https://s/a") "https://s/a"
           = mark_post_as_migrated emptyLedger "https://s/a"
       ∧ (mark_post_as_migrated (mark_post_as_migrated emptyLedger "https://s/a") "https://s/a").rows.countP
           (fun r => r.url == "https://s/a") = 1) :=
  ⟨by decide, c4_ledger_idempotence emptyLedger "https://s/a" (by decide)⟩

/-- Claim C8 — Reset: after `delete_migrated_posts`, `is_post_migrated u` is
false for every url `u`, and the next insert receives the initial
AUTOINCREMENT id 1 again. -/
theorem c8_reset (l : Ledger) (u : String) :
    is_post_migrated (delete_migrated_posts l) u = false
    ∧ (mark_post_as_migrated (delete_migrated_posts l) u).rows =
        [{ id := 1, url := u, featured_image := none, wp_post_id := none }] := by
  exact ⟨rfl, rfl⟩

/-- Claim C6 — Date transform: on raw date "March 27, 2025" the date step
succeeds for every RNG state, producing a timestamp that begins
"2025-03-27T" with an hour in [06, 23] (and minute and second in [00, 59]). -/
theorem c6_date_transform (rng : Nat → Nat) (pos : Nat) :
    ∃ h m s pos2,
      format_post_date rng pos "March 27, 2025" =
        (Except.ok ("2025-03-27T" ++ pad2 h ++ ":" ++ pad2 m ++ ":" ++ pad2 s), pos2)
      ∧ 6 ≤ h ∧ h ≤ 23 ∧ m ≤ 59 ∧ s ≤ 59 := by
  refine ⟨6 + rng pos % 18, 0 + rng (pos + 1) % 60, 0 + rng (pos + 1 + 1) % 60,
    pos + 1 + 1 + 1, rfl, by omega, ?_, ?_, ?_⟩
  · have := Nat.mod_lt (rng pos) (show 0 < 18 by decide); omega
  · have := Nat.mod_lt (rng (pos + 1)) (show 0 < 60 by decide); omega
  · have := Nat.mod_lt (rng (pos + 1 + 1)) (show 0 < 60 by decide); omega

/-- The flatMap-then-filter core of `safe_filename` fixes a pure-ASCII
character list. -/
theorem ascii_flatMap_filter (decomp : Char → List Char) (l : List Char)
    (h : l.all (fun c => c.toNat < 128) = true) :
    (l.flatMap (nfkd_char decomp)).filter (fun c => c.toNat < 128) = l := by
  induction l with
  | nil => rfl
  | cons c cs ih =>
    simp only [List.all_cons, Bool.and_eq_true, decide_eq_true_eq] at h
    obtain ⟨hc, hcs⟩ := h
    simp [List.flatMap_cons, nfkd_char, hc, List.filter_append, List.filter_cons, ih hcs]

/-- Claim C10 — filename sanitization is ASCII-total: an already pure-ASCII
input comes back unchanged, every output of `safe_filename` consists only of
ASCII characters, and hence the Content-Disposition filename built by
`upload_featured_image` is ASCII-safe. -/
theorem c10_safe_filename_ascii (decomp : Char → List Char) (name : String)
    (h : name.data.all (fun c => c.toNat < 128) = true) :
    safe_filename decomp name = name
    ∧ (∀ n2 : String, (safe_filename decomp n2).data.all (fun c => c.toNat < 128) = true)
    ∧ (∀ (env : Env) (p : String),
        (content_disposition_filename env p).data.all (fun c => c.toNat < 128) = true) := by
  refine ⟨?_, ?_, ?_⟩
  · show String.mk ((name.data.flatMap (nfkd_char decomp)).filter (fun c => c.toNat < 128)) = name
    rw [ascii_flatMap_filter decomp name.data h]
  · intro n2
    exact all_filter_self _ _
  · intro env p
    exact all_filter_self _ _

/-- Claim C10 witness at a concrete ASCII filename. -/
theorem c10_safe_filename_ascii_witness :
    ("hello.jpg".data.all (fun c => c.toNat < 128) = true)
    ∧ safe_filename (fun _ => []) "hello.jpg" = "hello.jpg" :=
  ⟨by decide, (c10_safe_filename_ascii (fun _ => []) "hello.jpg" (by decide)).1⟩

/-- The image-collection step fails with `KeyError('src')` whenever some
`<img>` element has no `src` attribute. -/
theorem collect_img_srcs_err (imgs : List Img)
    (h : ∃ img ∈ imgs, img.src = none) :
    collect_img_srcs imgs = Except.error (PyErr.keyError "src") := by
  induction imgs with
  | nil => simp at h
  | cons i rest ih =>
    rcases h with ⟨img, hmem, hsrc⟩
    rcases List.mem_cons.mp hmem with heq | hmem2
    · subst heq
      simp [collect_img_srcs, hsrc]
    · cases hi : i.src with
      | none => simp [collect_img_srcs, hi]
      | some s => simp [collect_img_srcs, hi, ih ⟨img, hmem2, hsrc⟩]

/-- Claim C9 — transform requires `src` on every image: if any `<img>` element
of the post content lacks a `src` attribute, the image-collection step raises
`KeyError('src')` (the image is not silently skipped), and consequently
`format_post_content` fails for every environment and RNG state — the
transform is partial at its public interface. -/
theorem c9_img_src_required (post : FullPost)
    (h : ∃ img ∈ post.content_imgs, img.src = none) :
    collect_img_srcs post.content_imgs = Except.error (PyErr.keyError "src")
    ∧ ∀ (env : Env) (pos : Nat), ∃ e, (format_post_content env pos post).1 = Except.error e := by
  have hc := collect_img_srcs_err post.content_imgs h
  refine ⟨hc, ?_⟩
  intro env pos
  rcases hd : format_post_date env.rng pos post.date with ⟨exc, dpos⟩
  cases exc with
  | error de => exact ⟨PyErr.valueError de, by simp [format_post_content, hd]⟩
  | ok dok => exact ⟨PyErr.keyError "src", by simp [format_post_content, hd, hc]⟩

/-- Claim C9 witness at a concrete post. -/
theorem c9_img_src_required_witness :
    collect_img_srcs testPostC9.content_imgs = Except.error (PyErr.keyError "src") :=
  (c9_img_src_required testPostC9 ⟨{ src := none, classes := [] }, by decide, rfl⟩).1

/-- Claim C7 — featured-image absence: an empty image-URL sequence makes
`process_image_links` return the empty path (without erroring), the media
upload opens no file and issues no remote request, and the payload is still
assembled with an absent featured-media field. -/
theorem c7_featured_image_absence (env : Env) (pos : Nat) (post : FullPost)
    (y m d : Nat)
    (hfs : env.fs "" = none)
    (himgs : post.content_imgs = [])
    (hdate : strptime_BdY post.date = some (y, m, d)) :
    process_image_links env [] post.title =
      { featured_media := some "", content_images := some [] }
    ∧ upload_featured_image env (some "") = Except.ok (none, false)
    ∧ ∃ payload, (format_post_content env pos post).1 = Except.ok (payload, false)
        ∧ payload.featured_media = none := by
  refine ⟨rfl, ?_, ?_⟩
  · simp [upload_featured_image, hfs]
  · rcases hfd : format_post_date env.rng pos post.date with ⟨exc, p3⟩
    cases exc with
    | error msg =>
      exfalso
      unfold format_post_date at hfd
      rw [hdate] at hfd
      simp [randint] at hfd
    | ok datestr =>
      have hres : (format_post_content env pos post).1 =
          Except.ok (({ date := datestr, title := post.title,
                        content := wrap_content (env.serialize []),
                        featured_media := none } : Payload), false) := by
        simp [format_post_content, hfd, himgs, collect_img_srcs, process_image_links,
              upload_featured_image, hfs]
      exact ⟨_, hres, rfl⟩

/-- Claim C7 witness at a concrete environment and post. -/
theorem c7_featured_image_absence_witness :
    defaultEnv.fs "" = none
    ∧ testPostC7.content_imgs = []
    ∧ strptime_BdY testPostC7.date = some (2025, 3, 27)
    ∧ upload_featured_image defaultEnv (some "") = Except.ok (none, false) :=
  ⟨rfl, rfl, by decide,
    (c7_featured_image_absence defaultEnv 0 testPostC7 2025 3 27 rfl rfl (by decide)).2.1⟩

/-- Claim C5 — one-shot recovery: when the first `run_migration` aborts with a
`WebDriverException`, the `__main__` wrapper triggers the ChromeDriver-upgrade
procedure and restarts the entire run exactly once; if that second run also
fails with a `WebDriverException`, the error is the final outcome — it
propagates to the caller as fatal, with no further retry. -/
theorem c5_one_shot_recovery (env1 env2 : Env) (ledger : Ledger) (st1 : RunState)
    (h : run_migration env1 ledger = (st1, some RunError.webDriver)) :
    main_entry env1 env2 ledger = (run_migration env2 st1.ledger, true)
    ∧ (∀ st2, run_migration env2 st1.ledger = (st2, some RunError.webDriver) →
        main_entry env1 env2 ledger = ((st2, some RunError.webDriver), true)) := by
  have h1 : main_entry env1 env2 ledger = (run_migration env2 st1.ledger, true) := by
    unfold main_entry
    rw [h]
  exact ⟨h1, fun st2 h2 => by rw [h1, h2]⟩

/-- Claim C5 witness: a concrete renderer crash triggers the upgrade and the
single restart. -/
theorem c5_one_shot_recovery_witness :
    run_migration crashEnv emptyLedger = (initState emptyLedger, some RunError.webDriver)
    ∧ main_entry crashEnv crashEnv emptyLedger =
        (run_migration crashEnv (initState emptyLedger).ledger, true) :=
  ⟨rfl, (c5_one_shot_recovery crashEnv crashEnv emptyLedger (initState emptyLedger) rfl).1⟩

/-- Claim C3 counterexample: with a malformed-date post ("13/45/2025")
followed by a well-formed post, the run does NOT skip-and-continue — the
`ValueError` escapes the per-post loop (only `WebDriverException` is caught,
at the `__main__` level), the second post is never processed (the trace ends
at the format call of the first post), and no ledger record is produced. -/
theorem c3_counterexample :
    (run_migration cexEnvC3 emptyLedger).2 =
      some (RunError.pyExc (PyErr.valueError dateFormatErrMsg))
    ∧ (run_migration cexEnvC3 emptyLedger).1.events =
      [Event.scrapeCall "https://s/p1", Event.saveCall "https://s/p1",
       Event.formatCall "https://s/p1"]
    ∧ is_post_migrated (run_migration cexEnvC3 emptyLedger).1.ledger "https://s/p1" = false :=
  ⟨rfl, rfl, rfl⟩

/-- Claim C3 (amended) — malformed-date containment, as the code behaves: the
Transform stage raises the descriptive `ValueError`; the Orchestrator does
not catch it at the per-post boundary, so the error propagates and aborts the
run — the remaining posts are not processed — and no ledger record is
produced for the failing post (the returned state keeps the ledger
unchanged). -/
theorem c3_amended_malformed_date_aborts (env : Env) (st : RunState) (p : PostRef)
    (full : FullPost)
    (hmig : is_post_migrated st.ledger p.url = false)
    (hscr : env.scrape p.url = ScrapeResult.post full)
    (hdate : strptime_BdY full.date = none) :
    processPost env st p =
      ({ st with temp := temp_save st.temp full,
                 events := st.events ++ [Event.scrapeCall p.url, Event.saveCall p.url,
                                         Event.formatCall p.url] },
       some (RunError.pyExc (PyErr.valueError dateFormatErrMsg)))
    ∧ ∀ ps, runPosts env st (p :: ps) =
      ({ st with temp := temp_save st.temp full,
                 events := st.events ++ [Event.scrapeCall p.url, Event.saveCall p.url,
                                         Event.formatCall p.url] },
       some (RunError.pyExc (PyErr.valueError dateFormatErrMsg))) := by
  have h1 : processPost env st p =
      ({ st with temp := temp_save st.temp full,
                 events := st.events ++ [Event.scrapeCall p.url, Event.saveCall p.url,
                                         Event.formatCall p.url] },
       some (RunError.pyExc (PyErr.valueError dateFormatErrMsg))) := by
    simp [processPost, hmig, hscr, format_post_content, format_post_date, hdate]
  exact ⟨h1, fun ps => by simp [runPosts, h1]⟩

/-- Claim C3 (amended) witness at the concrete malformed post. -/
theorem c3_amended_malformed_date_aborts_witness :
    is_post_migrated (initState emptyLedger).ledger "https://s/p1" = false
    ∧ cexEnvC3.scrape "https://s/p1" = ScrapeResult.post badPost
    ∧ strptime_BdY badPost.date = none
    ∧ processPost cexEnvC3 (initState emptyLedger)
        { title := "P1", url := "https://s/p1", featured_image := none } =
      ({ initState emptyLedger with
         temp := temp_save (initState emptyLedger).temp badPost,
         events := (initState emptyLedger).events ++
           [Event.scrapeCall "https://s/p1", Event.saveCall "https://s/p1",
            Event.formatCall "https://s/p1"] },
       some (RunError.pyExc (PyErr.valueError dateFormatErrMsg))) :=
  ⟨rfl, rfl, by decide,
    (c3_amended_malformed_date_aborts cexEnvC3 (initState emptyLedger)
      { title := "P1", url := "https://s/p1", featured_image := none }
      badPost rfl rfl (by decide)).1⟩

@[simp] theorem touches_skip (u v : String) : touches u (Event.skip v) = false := rfl

@[simp] theorem touches_scrapeFail (u v : String) : touches u (Event.scrapeFail v) = false := rfl

@[simp] theorem touches_scrapeCall (u v : String) : touches u (Event.scrapeCall v) = (v == u) := rfl

@[simp] theorem touches_saveCall (u v : String) : touches u (Event.saveCall v) = (v == u) := rfl

@[simp] theorem touches_formatCall (u v : String) : touches u (Event.formatCall v) = (v == u) := rfl

@[simp] theorem touches_uploadCall (u v : String) (b : Bool) :
    touches u (Event.uploadCall v b) = (v == u) := rfl

@[simp] theorem touches_markCall (u v : String) : touches u (Event.markCall v) = (v == u) := rfl

/-- One loop iteration preserves "`u` is in the ledger and nothing in the
trace touches `u`": an already-migrated url is only ever skipped. -/
theorem processPost_skip_silent (env : Env) (p : PostRef) (st : RunState) (u : String)
    (h1 : is_post_migrated st.ledger u = true)
    (h2 : st.events.all (fun e => !(touches u e)) = true) :
    is_post_migrated (processPost env st p).1.ledger u = true
    ∧ (processPost env st p).1.events.all (fun e => !(touches u e)) = true := by
  by_cases hpu : p.url = u
  · subst hpu
    simp [processPost, h1, List.all_append, h2]
  · by_cases hmig : is_post_migrated st.ledger p.url = true
    · simp [processPost, hmig, List.all_append, h1, h2]
    · rw [Bool.not_eq_true] at hmig
      cases hscr : env.scrape p.url with
      | driverCrash =>
        simp [processPost, hmig, hscr, List.all_append, h1, h2, hpu]
      | failed =>
        simp [processPost, hmig, hscr, List.all_append, h1, h2, hpu]
      | post full =>
        rcases hf : format_post_content env st.rngPos full with ⟨exc, pos1⟩
        cases exc with
        | error e =>
          simp [processPost, hmig, hscr, hf, List.all_append, h1, h2, hpu]
        | ok pr =>
          obtain ⟨payload, mr⟩ := pr
          by_cases hok : upload_post env payload = true
          · simp [processPost, hmig, hscr, hf, hok, List.all_append,
                  is_post_migrated_mark, h1, h2, hpu]
          · rw [Bool.not_eq_true] at hok
            simp [processPost, hmig, hscr, hf, hok, List.all_append, h1, h2, hpu]

/-- The whole loop preserves the skip-silence property. -/
theorem runPosts_skip_silent (env : Env) (u : String) :
    ∀ (ps : List PostRef) (st : RunState),
      is_post_migrated st.ledger u = true →
      st.events.all (fun e => !(touches u e)) = true →
      is_post_migrated (runPosts env st ps).1.ledger u = true
      ∧ (runPosts env st ps).1.events.all (fun e => !(touches u e)) = true := by
  intro ps
  induction ps with
  | nil => intro st hl he; exact ⟨hl, he⟩
  | cons p ps ih =>
    intro st hl he
    have g := processPost_skip_silent env p st u hl he
    rcases hp : processPost env st p with ⟨st1, oe⟩
    rw [hp] at g
    cases oe with
    | none => simpa [runPosts, hp] using ih st1 g.1 g.2
    | some e => simpa [runPosts, hp] using g

/-- Claim C2 — skip invariant: for any url already present in the ledger when
the run starts, the run performs no side effect for it — the trace contains
no Extraction, Session-Cache save, Transform, Publisher, or ledger-write
event for that url. -/
theorem c2_skip_invariant (env : Env) (ledger : Ledger) (u : String)
    (h : is_post_migrated ledger u = true) :
    (run_migration env ledger).1.events.all (fun e => !(touches u e)) = true := by
  unfold run_migration
  cases hd : env.discover with
  | driverCrash => simp [initState]
  | posts ps => exact (runPosts_skip_silent env u ps (initState ledger) h rfl).2

/-- Claim C2 witness at a concrete migrated post. -/
theorem c2_skip_invariant_witness :
    is_post_migrated ledgerC2 "https://s/a1" = true
    ∧ (run_migration envC2 ledgerC2).1.events.all
        (fun e => !(touches "https://s/a1" e)) = true :=
  ⟨by decide, c2_skip_invariant envC2 ledgerC2 "https://s/a1" (by decide)⟩

/-- One loop iteration preserves the publish-gates-record invariant: a mark
event exists exactly when a successful upload event exists, and the ledger
holds exactly the initially-present urls plus the successfully uploaded
ones. -/
theorem processPost_gate (env : Env) (ledger0 : Ledger) (p : PostRef) (st : RunState)
    (hI : ∀ u : String,
      ((Event.markCall u ∈ st.events) ↔ (Event.uploadCall u true ∈ st.events))
      ∧ (is_post_migrated st.ledger u = true ↔
          (is_post_migrated ledger0 u = true ∨ Event.uploadCall u true ∈ st.events))) :
    ∀ u : String,
      ((Event.markCall u ∈ (processPost env st p).1.events) ↔
        (Event.uploadCall u true ∈ (processPost env st p).1.events))
      ∧ (is_post_migrated (processPost env st p).1.ledger u = true ↔
          (is_post_migrated ledger0 u = true ∨
           Event.uploadCall u true ∈ (processPost env st p).1.events)) := by
  intro u
  obtain ⟨h1, h2⟩ := hI u
  by_cases hmig : is_post_migrated st.ledger p.url = true
  · constructor
    · simp [processPost, hmig, h1]
    · simp [processPost, hmig, h2]
  · rw [Bool.not_eq_true] at hmig
    cases hscr : env.scrape p.url with
    | driverCrash => exact ⟨by simp [processPost, hmig, hscr, h1],
                            by simp [processPost, hmig, hscr, h2]⟩
    | failed => exact ⟨by simp [processPost, hmig, hscr, h1],
                       by simp [processPost, hmig, hscr, h2]⟩
    | post full =>
      rcases hf : format_post_content env st.rngPos full with ⟨exc, pos1⟩
      cases exc with
      | error e => exact ⟨by simp [processPost, hmig, hscr, hf, h1],
                          by simp [processPost, hmig, hscr, hf, h2]⟩
      | ok pr =>
        obtain ⟨payload, mr⟩ := pr
        by_cases hok : upload_post env payload = true
        · by_cases hpu : p.url = u
          · subst hpu
            constructor
            · simp [processPost, hmig, hscr, hf, hok]
            · simp [processPost, hmig, hscr, hf, hok, is_post_migrated_mark]
          · have hpu2 : ¬u = p.url := fun hh => hpu hh.symm
            constructor
            · simp [processPost, hmig, hscr, hf, hok, hpu, hpu2, h1]
            · simp [processPost, hmig, hscr, hf, hok, hpu, hpu2, h2,
                    is_post_migrated_mark]
        · rw [Bool.not_eq_true] at hok
          exact ⟨by simp [processPost, hmig, hscr, hf, hok, h1],
                 by simp [processPost, hmig, hscr, hf, hok, h2]⟩

/-- The whole loop preserves the publish-gates-record invariant. -/
theorem runPosts_gate (env : Env) (ledger0 : Ledger) :
    ∀ (ps : List PostRef) (st : RunState),
      (∀ u : String,
        ((Event.markCall u ∈ st.events) ↔ (Event.uploadCall u true ∈ st.events))
        ∧ (is_post_migrated st.ledger u = true ↔
            (is_post_migrated ledger0 u = true ∨ Event.uploadCall u true ∈ st.events))) →
      ∀ u : String,
        ((Event.markCall u ∈ (runPosts env st ps).1.events) ↔
          (Event.uploadCall u true ∈ (runPosts env st ps).1.events))
        ∧ (is_post_migrated (runPosts env st ps).1.ledger u = true ↔
            (is_post_migrated ledger0 u = true ∨
             Event.uploadCall u true ∈ (runPosts env st ps).1.events)) := by
  intro ps
  induction ps with
  | nil => intro st hI; exact hI
  | cons p ps ih =>
    intro st hI
    have g := processPost_gate env ledger0 p st hI
    rcases hp : processPost env st p with ⟨st1, oe⟩
    rw [hp] at g
    cases oe with
    | none =>
      intro u
      simpa [runPosts, hp] using ih st1 g u
    | some e =>
      intro u
      simpa [runPosts, hp] using g u

/-- Claim C1 — publish gates record: over any run, a ledger-mark event for a
url occurs exactly when `upload_post` returned success for that url in the
same run, and a url is in the final ledger exactly when it was already there
or was uploaded successfully in this run; a post whose upload returns a
negative result is left unmarked. -/
theorem c1_publish_gates_record (env : Env) (ledger0 : Ledger) (u : String) :
    ((Event.markCall u ∈ (run_migration env ledger0).1.events) ↔
      (Event.uploadCall u true ∈ (run_migration env ledger0).1.events))
    ∧ (is_post_migrated (run_migration env ledger0).1.ledger u = true ↔
        (is_post_migrated ledger0 u = true ∨
         Event.uploadCall u true ∈ (run_migration env ledger0).1.events)) := by
  have hinit : ∀ v : String,
      ((Event.markCall v ∈ (initState ledger0).events) ↔
        (Event.uploadCall v true ∈ (initState ledger0).events))
      ∧ (is_post_migrated (initState ledger0).ledger v = true ↔
          (is_post_migrated ledger0 v = true ∨
           Event.uploadCall v true ∈ (initState ledger0).events)) := by
    intro v
    simp [initState]
  unfold run_migration
  cases hd : env.discover with
  | driverCrash => exact hinit u
  | posts ps => exact runPosts_gate env ledger0 ps (initState ledger0) hinit u
